import Mathlib

/-!
Shallow embedding of the data-access and lifecycle core of the
call-log-management application (Python sources under src/):

* storage/mongo_repo.py  - MongoDB repository (master records, call logs)
* storage/mssql_repo.py  - MSSQL repository (every operation opens a
  connection through utils/db_config.get_db_connection)
* utils/db_config.py     - get_db_connection (unconditionally raises)
* utils/activation.py    - verify_key
* utils/helpers.py       - set_active_repo re-verification on startup
* utils/backup_service.py- run_mongo_backup and _clean_old_backups
* pages/reports_page.py  - date-range construction for callLogList

Datetimes are modelled as natural numbers counting microseconds since an
epoch; a calendar day is the quotient by usPerDay and the time-of-day
component the remainder.  Python str values that may be absent or None are
modelled as Option String; dict-shaped records become structures.
-/

namespace CallLogMgmt

/-- Microseconds in one day; datetime.max.time() of a day d is
d * usPerDay + (usPerDay - 1). -/
def usPerDay : Nat := 86400000000

/-- Model of a Python value as far as the claims need it: None, a string,
a datetime (microseconds since epoch) or a bool. -/
inductive PyVal where
  | pynone
  | pystr (s : String)
  | pydt (d : Nat)
  | pybool (b : Bool)
deriving DecidableEq, Repr

/-- Python exceptions surfaced by the embedded code. -/
inductive PyErr where
  | runtimeError (msg : String)
  | typeError (msg : String)
deriving DecidableEq, Repr

/-- Mongo-level errors raised by write operations against a unique index
(pymongo DuplicateKeyError / BulkWriteError). -/
inductive MongoErr where
  | duplicateKey
  | bulkWriteError
deriving DecidableEq, Repr

/-- Python str.strip(): drop whitespace from both ends.  Lean's built-in
String.trim is defined by well-founded recursion and does not evaluate
inside the kernel, so stripping is modelled character-wise. -/
def pyStrip (s : String) : String :=
  String.mk (((s.toList.dropWhile Char.isWhitespace).reverse.dropWhile
    Char.isWhitespace).reverse)

/-- Python str.upper(): uppercase every character. -/
def pyUpper (s : String) : String :=
  String.mk (s.toList.map Char.toUpper)

/-- Python str.lower(): lowercase every character. -/
def pyLower (s : String) : String :=
  String.mk (s.toList.map Char.toLower)

/-- _normalize_str from storage/mongo_repo.py and storage/mssql_repo.py:
None stays None, otherwise the string is stripped and an empty result is
coerced to None. -/
def normalizeStr : Option String → Option String
  | none => none
  | some s => let t := pyStrip s; if t = "" then none else some t

/-- Input master record (the dict passed to master_create etc.); absent
keys and None values are both Option.none, matching dict.get. -/
structure MasterRec where
  MobileNo : Option String := none
  Project : Option String := none
  TownType : Option String := none
  Requester : Option String := none
  RDCode : Option String := none
  RDName : Option String := none
  Town : Option String := none
  State : Option String := none
  Designation : Option String := none
  Name : Option String := none
  GSTNo : Option String := none
  EmailID : Option String := none
  CreatedDate : Option Nat := none
  UpdatedDate : Option Nat := none
deriving DecidableEq, Repr

/-- A master document as stored in the Mongo master collection (the field
part of it, without the ObjectId). -/
structure MasterFields where
  MobileNo : Option String := none
  Project : Option String := none
  TownType : Option String := none
  Requester : Option String := none
  RDCode : Option String := none
  RDName : Option String := none
  Town : Option String := none
  State : Option String := none
  Designation : Option String := none
  Name : Option String := none
  GSTNo : Option String := none
  EmailID : Option String := none
  CreatedDate : Nat := 0
  UpdatedDate : Nat := 0
deriving DecidableEq, Repr

/-- A stored master document: ObjectId (modelled as Nat) plus fields. -/
structure MasterDoc where
  oid : Nat
  fields : MasterFields
deriving DecidableEq, Repr

/-- _master_to_doc from storage/mongo_repo.py: normalizes every string
field; CreatedDate / UpdatedDate default to now. -/
def master_to_doc (r : MasterRec) (now : Nat) : MasterFields :=
  { MobileNo := normalizeStr r.MobileNo
    Project := normalizeStr r.Project
    TownType := normalizeStr r.TownType
    Requester := normalizeStr r.Requester
    RDCode := normalizeStr r.RDCode
    RDName := normalizeStr r.RDName
    Town := normalizeStr r.Town
    State := normalizeStr r.State
    Designation := normalizeStr r.Designation
    Name := normalizeStr r.Name
    GSTNo := normalizeStr r.GSTNo
    EmailID := normalizeStr r.EmailID
    CreatedDate := r.CreatedDate.getD now
    UpdatedDate := r.UpdatedDate.getD now }

/-- Input call-log record passed to calllog_create.  The Date key can hold
any Python value (a datetime, a string, or be absent/None). -/
structure CallRec where
  Date : PyVal := .pynone
  MobileNo : Option String := none
  Project : Option String := none
  Town : Option String := none
  Requester : Option String := none
  RDCode : Option String := none
  RDName : Option String := none
  State : Option String := none
  Designation : Option String := none
  Name : Option String := none
  Module : Option String := none
  Issue : Option String := none
  Solution : Option String := none
  SolvedOn : Option String := none
  CallOn : Option String := none
  TypeF : Option String := none
deriving DecidableEq, Repr

/-- A stored call-log document (Type is named TypeF because Type is a Lean
keyword).  Date is always a datetime by construction of calllog_create. -/
structure CallDoc where
  oid : Nat
  Date : Nat
  MobileNo : Option String := none
  Project : Option String := none
  Town : Option String := none
  Requester : Option String := none
  RDCode : Option String := none
  RDName : Option String := none
  State : Option String := none
  Designation : Option String := none
  Name : Option String := none
  Module : Option String := none
  Issue : Option String := none
  Solution : Option String := none
  SolvedOn : Option String := none
  CallOn : Option String := none
  TypeF : Option String := none
  CreatedDate : Nat := 0
  UpdatedDate : Nat := 0
deriving DecidableEq, Repr

/-- The logical contents of the Mongo database reachable from
MongoRepository, plus the ObjectId generator. -/
structure MongoState where
  master : List MasterDoc := []
  calllog : List CallDoc := []
  nextId : Nat := 1
deriving DecidableEq, Repr

/-- DateRange (utils/data_models.py): optional start and end datetimes.
The end field is named endD because end is a Lean keyword. -/
structure DateRange where
  startD : Option Nat := none
  endD : Option Nat := none
deriving DecidableEq, Repr

/-- Ascending order on optional strings as the Mongo sort on an indexed
string field behaves: null/missing sorts before any string. -/
def optStrLe (a b : Option String) : Prop :=
  match a, b with
  | none, _ => True
  | some _, none => False
  | some x, some y => x ≤ y

instance : DecidableRel optStrLe := fun a b => by
  unfold optStrLe
  cases a <;> cases b <;> infer_instance

instance : IsTotal (Option String) optStrLe where
  total a b := by
    cases a <;> cases b <;> simp [optStrLe]
    exact le_total _ _

instance : IsTrans (Option String) optStrLe where
  trans a b c hab hbc := by
    cases a <;> cases b <;> cases c <;> simp_all [optStrLe]
    exact le_trans hab hbc

/-- Sort key of master_list: ascending MobileNo. -/
def masterMobLe (x y : MasterDoc) : Prop := optStrLe x.fields.MobileNo y.fields.MobileNo

instance : DecidableRel masterMobLe := fun x y => by unfold masterMobLe; infer_instance

instance : IsTotal MasterDoc masterMobLe where
  total x y := total_of optStrLe x.fields.MobileNo y.fields.MobileNo

instance : IsTrans MasterDoc masterMobLe where
  trans _ _ _ hab hbc := trans_of optStrLe hab hbc

/-- Sort key of calllog_list: descending Date. -/
def callDateGe (x y : CallDoc) : Prop := y.Date ≤ x.Date

instance : DecidableRel callDateGe := fun x y => by unfold callDateGe; infer_instance

instance : IsTotal CallDoc callDateGe where
  total x y := le_total y.Date x.Date

instance : IsTrans CallDoc callDateGe where
  trans _ _ _ hab hbc := le_trans hbc hab

namespace Mongo

/-- MongoRepository.master_list: find all master documents and sort by
MobileNo ascending; each document is shaped into a record whose id is the
stringified ObjectId. -/
def master_list (s : MongoState) : List (String × MasterFields) :=
  (List.insertionSort masterMobLe s.master).map (fun d => (toString d.oid, d.fields))

/-- MongoRepository.master_create: insert_one against the unique index on
MobileNo; a document whose normalized MobileNo already occurs raises
DuplicateKeyError, otherwise the new stringified ObjectId is returned. -/
def master_create (s : MongoState) (r : MasterRec) (now : Nat) :
    Except MongoErr (String × MongoState) :=
  let doc := master_to_doc r now
  if s.master.any (fun d => d.fields.MobileNo == doc.MobileNo) then
    .error .duplicateKey
  else
    .ok (toString s.nextId,
      { s with master := s.master ++ [{ oid := s.nextId, fields := doc }]
               nextId := s.nextId + 1 })

/-- MongoRepository.master_update: build the doc, stamp UpdatedDate with
now, and update-one the document with the given id via a full field set.
The Python function returns None, modelled as PyVal.pynone. -/
def master_update (s : MongoState) (rid : Nat) (r : MasterRec) (now : Nat) :
    PyVal × MongoState :=
  let doc := { master_to_doc r now with UpdatedDate := now }
  (PyVal.pynone,
   { s with master := s.master.map (fun d => if d.oid = rid then { d with fields := doc } else d) })

/-- Insert each document of insert_many(ordered=False): documents whose
MobileNo collides with an already-present one are skipped and flagged;
the rest are inserted. Returns (state, inserted count, conflict flag). -/
def insertManyMaster (s : MongoState) (docs : List MasterFields) : MongoState × Nat × Bool :=
  docs.foldl
    (fun acc doc =>
      let (st, n, bad) := acc
      if st.master.any (fun d => d.fields.MobileNo == doc.MobileNo) then
        (st, n, true)
      else
        ({ st with master := st.master ++ [{ oid := st.nextId, fields := doc }]
                   nextId := st.nextId + 1 }, n + 1, bad))
    (s, 0, false)

/-- MongoRepository.master_replace_all: delete_many({}) first, then return
0 for an empty input, otherwise insert_many(ordered=False), which raises
BulkWriteError when any document was rejected by the unique index. -/
def master_replace_all (s : MongoState) (records : List MasterRec) (now : Nat) :
    Except MongoErr (Nat × MongoState) :=
  let s0 : MongoState := { s with master := [] }
  if records.isEmpty then
    .ok (0, s0)
  else
    let docs := records.map (fun r => master_to_doc r now)
    let (s1, n, bad) := insertManyMaster s0 docs
    if bad then .error .bulkWriteError else .ok (n, s1)

/-- MongoRepository.calllog_create: normalize the fifteen text fields,
keep the supplied Date when it is a datetime instance and stamp the
current time otherwise; CreatedDate and UpdatedDate are stamped now. -/
def calllog_create (s : MongoState) (r : CallRec) (now : Nat) : String × MongoState :=
  let dateVal : Nat := match r.Date with
    | .pydt d => d
    | _ => now
  let doc : CallDoc :=
    { oid := s.nextId
      Date := dateVal
      MobileNo := normalizeStr r.MobileNo
      Project := normalizeStr r.Project
      Town := normalizeStr r.Town
      Requester := normalizeStr r.Requester
      RDCode := normalizeStr r.RDCode
      RDName := normalizeStr r.RDName
      State := normalizeStr r.State
      Designation := normalizeStr r.Designation
      Name := normalizeStr r.Name
      Module := normalizeStr r.Module
      Issue := normalizeStr r.Issue
      Solution := normalizeStr r.Solution
      SolvedOn := normalizeStr r.SolvedOn
      CallOn := normalizeStr r.CallOn
      TypeF := normalizeStr r.TypeF
      CreatedDate := now
      UpdatedDate := now }
  (toString s.nextId, { s with calllog := s.calllog ++ [doc], nextId := s.nextId + 1 })

/-- MongoRepository.calllog_list: when either bound is present the query
filters Date between the bounds (gte/lte, each only when present), else it
matches everything; the result is sorted by Date descending. -/
def calllog_list (s : MongoState) (dr : DateRange) : List CallDoc :=
  let docs :=
    if dr.startD.isSome || dr.endD.isSome then
      s.calllog.filter (fun d =>
        (dr.startD.all (fun a => decide (a ≤ d.Date))) &&
        (dr.endD.all (fun b => decide (d.Date ≤ b))))
    else s.calllog
  List.insertionSort callDateGe docs

end Mongo

/-- render_reports_page (pages/reports_page.py) builds the DateRange for
calllog_list: a chosen start day becomes datetime.combine(day, min.time())
and a chosen end day becomes datetime.combine(day, max.time()), i.e. the
last microsecond of that day. -/
def pageDateRange (startDay endDay : Option Nat) : DateRange :=
  { startD := startDay.map (fun d => d * usPerDay)
    endD := endDay.map (fun d => d * usPerDay + (usPerDay - 1)) }

/-- A row of the MSSQL Master table: identity column SrNo plus the twelve
text fields and the audit dates. -/
structure SqlRow where
  SrNo : Nat
  MobileNo : Option String := none
  Project : Option String := none
  TownType : Option String := none
  Requester : Option String := none
  RDCode : Option String := none
  RDName : Option String := none
  Town : Option String := none
  State : Option String := none
  Designation : Option String := none
  Name : Option String := none
  GSTNo : Option String := none
  EmailID : Option String := none
  CreatedDate : Nat := 0
  UpdatedDate : Nat := 0
deriving DecidableEq, Repr

/-- A row of the MSSQL CallLogEntries table. -/
structure SqlCallRow where
  SrNo : Nat
  Date : Nat
  MobileNo : Option String := none
  Project : Option String := none
  Town : Option String := none
  Requester : Option String := none
  RDCode : Option String := none
  RDName : Option String := none
  State : Option String := none
  Designation : Option String := none
  Name : Option String := none
  Module : Option String := none
  Issue : Option String := none
  Solution : Option String := none
  SolvedOn : Option String := none
  CallOn : Option String := none
  TypeF : Option String := none
deriving DecidableEq, Repr

/-- The logical contents of the MSSQL database plus the identity counters. -/
structure SqlState where
  master : List SqlRow := []
  calllog : List SqlCallRow := []
  nextSr : Nat := 1
deriving DecidableEq, Repr

/-- get_db_connection from src/utils/db_config.py: MSSQL support has been
removed; the helper unconditionally raises RuntimeError. -/
def get_db_connection : Except PyErr Unit :=
  .error (.runtimeError
    "MSSQL support removed. Use MongoDB repository (set DB_BACKEND=mongodb).")

/-- ORDER BY SrNo used by the MSSQL master_list query. -/
def sqlSrLe (x y : SqlRow) : Prop := x.SrNo ≤ y.SrNo

instance : DecidableRel sqlSrLe := fun x y => by unfold sqlSrLe; infer_instance

instance : IsTotal SqlRow sqlSrLe where
  total x y := le_total x.SrNo y.SrNo

instance : IsTrans SqlRow sqlSrLe where
  trans _ _ _ hab hbc := le_trans hab hbc

namespace MSSQL

/-- MSSQLRepository.master_list: opens a connection through
get_db_connection, then SELECTs all rows ORDER BY SrNo, shaping each row
into a record whose id is the stringified SrNo. -/
def master_list (s : SqlState) : Except PyErr (List (String × SqlRow)) :=
  match get_db_connection with
  | .error e => .error e
  | .ok _ => .ok ((List.insertionSort sqlSrLe s.master).map (fun r => (toString r.SrNo, r)))

/-- MSSQLRepository.master_update: opens a connection, then UPDATEs the
twelve normalized fields and UpdatedDate=GETDATE() on the row WHERE
SrNo matches.  The Python function returns None (PyVal.pynone). -/
def master_update (s : SqlState) (rid : Nat) (r : MasterRec) (now : Nat) :
    Except PyErr (PyVal × SqlState) :=
  match get_db_connection with
  | .error e => .error e
  | .ok _ =>
    .ok (PyVal.pynone,
      { s with master := s.master.map (fun row =>
          if row.SrNo = rid then
            { row with
              MobileNo := normalizeStr r.MobileNo
              Project := normalizeStr r.Project
              TownType := normalizeStr r.TownType
              Requester := normalizeStr r.Requester
              RDCode := normalizeStr r.RDCode
              RDName := normalizeStr r.RDName
              Town := normalizeStr r.Town
              State := normalizeStr r.State
              Designation := normalizeStr r.Designation
              Name := normalizeStr r.Name
              GSTNo := normalizeStr r.GSTNo
              EmailID := normalizeStr r.EmailID
              UpdatedDate := now }
          else row) })

/-- MSSQLRepository.master_replace_all: opens a connection, DELETEs every
row, INSERTs each record in order, and returns the inserted count. -/
def master_replace_all (s : SqlState) (records : List MasterRec) :
    Except PyErr (Nat × SqlState) :=
  match get_db_connection with
  | .error e => .error e
  | .ok _ =>
    let ins := records.foldl
      (fun (acc : List SqlRow × Nat) r =>
        (acc.1 ++ [{ SrNo := acc.2
                     MobileNo := normalizeStr r.MobileNo
                     Project := normalizeStr r.Project
                     TownType := normalizeStr r.TownType
                     Requester := normalizeStr r.Requester
                     RDCode := normalizeStr r.RDCode
                     RDName := normalizeStr r.RDName
                     Town := normalizeStr r.Town
                     State := normalizeStr r.State
                     Designation := normalizeStr r.Designation
                     Name := normalizeStr r.Name
                     GSTNo := normalizeStr r.GSTNo
                     EmailID := normalizeStr r.EmailID }], acc.2 + 1))
      (([] : List SqlRow), s.nextSr)
    .ok (records.length, { master := ins.1, calllog := s.calllog, nextSr := ins.2 })

/-- MSSQLRepository.calllog_create: opens a connection, keeps the supplied
Date when it is a datetime instance and stamps the current time
otherwise, then INSERTs the normalized row returning the new SrNo. -/
def calllog_create (s : SqlState) (r : CallRec) (now : Nat) :
    Except PyErr (String × SqlState) :=
  match get_db_connection with
  | .error e => .error e
  | .ok _ =>
    let dt : Nat := match r.Date with
      | .pydt d => d
      | _ => now
    let row : SqlCallRow :=
      { SrNo := s.nextSr
        Date := dt
        MobileNo := normalizeStr r.MobileNo
        Project := normalizeStr r.Project
        Town := normalizeStr r.Town
        Requester := normalizeStr r.Requester
        RDCode := normalizeStr r.RDCode
        RDName := normalizeStr r.RDName
        State := normalizeStr r.State
        Designation := normalizeStr r.Designation
        Name := normalizeStr r.Name
        Module := normalizeStr r.Module
        Issue := normalizeStr r.Issue
        Solution := normalizeStr r.Solution
        SolvedOn := normalizeStr r.SolvedOn
        CallOn := normalizeStr r.CallOn
        TypeF := normalizeStr r.TypeF }
    .ok (toString s.nextSr,
      { s with calllog := s.calllog ++ [row], nextSr := s.nextSr + 1 })

end MSSQL

/-! ## Activation (utils/activation.py, utils/helpers.py)

The SHA-256 hex digest is modelled as an abstract parameter
H : String → String so that key derivation stays executable; every
theorem that needs two digests to differ states that as a hypothesis. -/

/-- Grouping of the first sixteen digest characters into
XXXX-XXXX-XXXX-XXXX, as both get_hardware_id and verify_key format keys. -/
def fmtKey (h : String) : String :=
  let c := h.toList
  String.mk (c.take 4) ++ "-" ++ String.mk ((c.drop 4).take 4) ++ "-" ++
    String.mk ((c.drop 8).take 4) ++ "-" ++ String.mk ((c.drop 12).take 4)

/-- The normalized concatenation hashed by verify_key:
cleaned email + cleaned mobile + cleaned hardware id + secret. -/
def rawStr (secret email mobile hwid : String) : String :=
  pyLower (pyStrip email) ++ pyStrip mobile ++ pyUpper (pyStrip hwid) ++ secret

/-- The expected key verify_key recomputes: format of the uppercased
digest of the normalized concatenation. -/
def expectedKey (H : String → String) (secret email mobile hwid : String) : String :=
  fmtKey (pyUpper (H (rawStr secret email mobile hwid)))

/-- verify_key from utils/activation.py.  An unconfigured secret is the
empty string (both a missing env var and an empty one are falsy); any
falsy argument short-circuits to false; otherwise the trimmed uppercased
provided key is compared with the recomputed expected key. -/
def verify_key (H : String → String) (secret email mobile hwid providedKey : String) : Bool :=
  if secret = "" then false
  else if email = "" || mobile = "" || hwid = "" || providedKey = "" then false
  else pyUpper (pyStrip providedKey) == expectedKey H secret email mobile hwid

/-- Python call semantics for verify_key applied to a positional argument
list: the function declares exactly four required positional parameters,
so any other arity raises TypeError. -/
def verify_key_pyCall (H : String → String) (secret : String) (args : List String) :
    Except PyErr Bool :=
  match args with
  | [email, mobile, hwid, providedKey] =>
      .ok (verify_key H secret email mobile hwid providedKey)
  | _ => .error (.typeError "verify_key() missing required positional arguments")

/-- The persisted activation record read back by set_active_repo; each
field is already forced to str by the caller. -/
structure ActRecord where
  email : String := ""
  mobile : String := ""
  key : String := ""
  hwid : String := ""
deriving DecidableEq, Repr

/-- The activation re-verification step of set_active_repo
(utils/helpers.py): read the persisted record and, when email, mobile and
key are all non-empty, call verify_key(email, mobile, key) — three
arguments for a four-parameter function.  Any exception inside the try
block is swallowed, leaving app_activated unchanged. -/
def set_active_repo_reverify (H : String → String) (secret : String)
    (actRecord : Option ActRecord) (activated0 : Bool) : Bool :=
  match actRecord with
  | none => activated0
  | some r =>
    if r.email ≠ "" ∧ r.mobile ≠ "" ∧ r.key ≠ "" then
      match verify_key_pyCall H secret [r.email, r.mobile, r.key] with
      | .ok true => true
      | .ok false => activated0
      | .error _ => activated0
    else activated0

/-! ## Backup (utils/backup_service.py) -/

/-- A file inside the backup destination folder. -/
structure FileEnt where
  name : String
  mtime : Nat
deriving DecidableEq, Repr

/-- The backup destination folder: flat files plus subdirectory names. -/
structure Folder where
  files : List FileEnt := []
  dirs : List String := []
deriving DecidableEq, Repr

/-- Outcome of the mongodump subprocess: success, or a non-zero exit with
the captured stderr; dirLeft records whether the failed dump had already
created its output directory. -/
inductive DumpOutcome where
  | ok
  | fail (stderr : String) (dirLeft : Bool)
deriving DecidableEq, Repr

/-- Environment of one run_mongo_backup call: whether the bundled
mongodump binary exists (and its resolved path), the subprocess outcome,
an optional exception raised by shutil.make_archive, the timestamp string
and the mtime given to the produced archive. -/
structure BackupEnv where
  toolExists : Bool := true
  binPath : String := "bin/mongodump"
  dump : DumpOutcome := .ok
  zipExc : Option String := none
  ts : String := ""
  nowM : Nat := 0
deriving DecidableEq, Repr

/-- Retention ordering: newest first by mtime. -/
def mtimeGe (x y : FileEnt) : Prop := y.mtime ≤ x.mtime

instance : DecidableRel mtimeGe := fun x y => by unfold mtimeGe; infer_instance

instance : IsTotal FileEnt mtimeGe where
  total x y := le_total y.mtime x.mtime

instance : IsTrans FileEnt mtimeGe where
  trans _ _ _ hab hbc := le_trans hbc hab

/-- Character-list test that pat is an initial segment of s. -/
def headMatches (pat s : String) : Bool :=
  s.toList.take pat.toList.length == pat.toList

/-- Character-list test that pat is a final segment of s. -/
def tailMatches (pat s : String) : Bool :=
  s.toList.reverse.take pat.toList.length == pat.toList.reverse

/-- The glob CLM_Backup_*.zip used by _clean_old_backups. -/
def globCLM (files : List FileEnt) : List FileEnt :=
  files.filter (fun f => headMatches "CLM_Backup_" f.name && tailMatches ".zip" f.name)

/-- _clean_old_backups: sort the files matching CLM_Backup_*.zip newest
first and os.remove every one after the first keepCount. -/
def clean_old_backups (folder : Folder) (keepCount : Nat) : Folder :=
  let backups := List.insertionSort mtimeGe (globCLM folder.files)
  if backups.length > keepCount then
    let toRemove := backups.drop keepCount
    { folder with files :=
        folder.files.filter (fun f => !(toRemove.any (fun g => g.name == f.name))) }
  else folder

/-- Remove a subdirectory if present (the guarded shutil.rmtree of the
exception handlers). -/
def removeDirIfExists (folder : Folder) (d : String) : Folder :=
  { folder with dirs := folder.dirs.filter (fun x => x ≠ d) }

/-- run_mongo_backup: resolve the dump binary, run mongodump into a
temporary directory inside the destination folder, zip that directory,
remove it, apply retention, and return (success, message); on a non-zero
subprocess exit or any other exception the temporary directory is removed
if it exists and (False, diagnostic) is returned. -/
def run_mongo_backup (env : BackupEnv) (dbName : String) (folder : Folder) :
    (Bool × String) × Folder :=
  if !env.toolExists then
    ((false, "Backup tool not found at: " ++ env.binPath), folder)
  else
    let tempDir := "temp_" ++ dbName ++ "_" ++ env.ts
    let zipBase := dbName ++ "_" ++ env.ts
    match env.dump with
    | .fail stderr dirLeft =>
        let f1 := if dirLeft then { folder with dirs := folder.dirs ++ [tempDir] } else folder
        let f2 := removeDirIfExists f1 tempDir
        ((false, "Backup failed: " ++ stderr), f2)
    | .ok =>
        let f1 := { folder with dirs := folder.dirs ++ [tempDir] }
        match env.zipExc with
        | some e =>
            let f2 := removeDirIfExists f1 tempDir
            ((false, e), f2)
        | none =>
            let f2 := { f1 with files := f1.files ++ [{ name := zipBase ++ ".zip", mtime := env.nowM }] }
            let f3 := removeDirIfExists f2 tempDir
            let f4 := clean_old_backups f3 3
            ((true, zipBase ++ ".zip"), f4)

/-! ## Concrete instances used by counterexamples and witnesses -/

/-- A sample hex digest function (constant) standing in for sha256
hexdigest in concrete evaluations. -/
def sampleHash : String → String := fun _ => "0000111122223333"

/-- A second sample digest function with letters, exercising the upper
casing of the digest. -/
def sampleHash2 : String → String := fun _ => "0123456789abcdef"

/-- A one-record master store (phone 111) for the replace-all and update
counterexamples. -/
def oneRecStore : MongoState :=
  { master := [{ oid := 1, fields := { MobileNo := some "111" } }]
    calllog := []
    nextId := 2 }

/-- The record used by the master_update counterexample. -/
def updRec : MasterRec := { MobileNo := some "222" }

/-- A backup folder holding five archives produced by earlier runs of
run_mongo_backup for database CallLogDB, mtimes 1..5. -/
def fiveArchives : Folder :=
  { files := [⟨"CallLogDB_20240101_000000.zip", 1⟩, ⟨"CallLogDB_20240102_000000.zip", 2⟩,
              ⟨"CallLogDB_20240103_000000.zip", 3⟩, ⟨"CallLogDB_20240104_000000.zip", 4⟩,
              ⟨"CallLogDB_20240105_000000.zip", 5⟩]
    dirs := [] }

/-- The environment of the sixth (successful) backup run. -/
def sixthRunEnv : BackupEnv :=
  { toolExists := true, binPath := "bin/mongodump", dump := .ok, zipExc := none,
    ts := "20240106_000000", nowM := 6 }

/-- The environment of a backup run whose mongodump subprocess exits
non-zero with stderr boom, leaving its output directory behind. -/
def failEnv : BackupEnv :=
  { toolExists := true, binPath := "bin/mongodump", dump := .fail "boom" true,
    zipExc := none, ts := "T", nowM := 0 }

/-- A call-log entry on day 2 at some mid-day time. -/
def dayTwoDoc : CallDoc := { oid := 1, Date := 2 * usPerDay + 123 }

/-- A call-log entry exactly at midnight of day 3. -/
def dayThreeDoc : CallDoc := { oid := 2, Date := 3 * usPerDay }

/-- A store holding the two sample call-log entries. -/
def reportStore : MongoState :=
  { master := [], calllog := [dayTwoDoc, dayThreeDoc], nextId := 3 }

/-! ## Helper lemmas -/

/-- verify_key returns true exactly when the secret is configured, every
field is non-empty, and the trimmed uppercased provided key equals the
recomputed expected key. -/
theorem verify_key_true_iff (H : String → String) (secret email mobile hwid key : String) :
    verify_key H secret email mobile hwid key = true ↔
      secret ≠ "" ∧ email ≠ "" ∧ mobile ≠ "" ∧ hwid ≠ "" ∧ key ≠ "" ∧
        pyUpper (pyStrip key) = expectedKey H secret email mobile hwid := by
  unfold verify_key
  split_ifs with h1 h2
  · simp [h1]
  · simp only [Bool.or_eq_true, decide_eq_true_eq] at h2
    simp only [Bool.false_eq_true, false_iff]
    intro h
    rcases h2 with h | h | h | h <;> tauto
  · simp only [Bool.or_eq_true, decide_eq_true_eq] at h2
    push_neg at h2
    simp only [beq_iff_eq]
    tauto

/-- A day window in microseconds corresponds exactly to a window on the
day quotient. -/
theorem dayWindow (d1 d2 n : Nat) :
    (d1 * usPerDay ≤ n ∧ n ≤ d2 * usPerDay + (usPerDay - 1)) ↔
      (d1 ≤ n / usPerDay ∧ n / usPerDay ≤ d2) := by
  have hU : 0 < usPerDay := by norm_num [usPerDay]
  have hdiv1 : d1 ≤ n / usPerDay ↔ d1 * usPerDay ≤ n := Nat.le_div_iff_mul_le hU
  have hdiv2 : n / usPerDay < d2 + 1 ↔ n < (d2 + 1) * usPerDay := Nat.div_lt_iff_lt_mul hU
  have hm : (d2 + 1) * usPerDay = d2 * usPerDay + usPerDay := Nat.succ_mul d2 usPerDay
  constructor
  · rintro ⟨h1, h2⟩
    refine ⟨hdiv1.mpr h1, ?_⟩
    have h3 : n < (d2 + 1) * usPerDay := by omega
    have h4 := hdiv2.mpr h3
    omega
  · rintro ⟨h1, h2⟩
    refine ⟨hdiv1.mp h1, ?_⟩
    have h3 : n / usPerDay < d2 + 1 := by omega
    have h4 := hdiv2.mp h3
    omega

/-- A removed directory is gone from the folder. -/
theorem not_mem_removeDir (f : Folder) (d : String) : d ∉ (removeDirIfExists f d).dirs := by
  intro h
  have := List.of_mem_filter h
  simp at this

/-- The Date coercion of calllog_create: a datetime value is kept,
anything else (absent, None, a string, a bool) is replaced by now. -/
theorem dateCoerce (v : PyVal) (now : Nat) :
    (∃ d, v = PyVal.pydt d ∧ (match v with | PyVal.pydt d => d | _ => now) = d)
    ∨ ((∀ d, v ≠ PyVal.pydt d) ∧ (match v with | PyVal.pydt d => d | _ => now) = now) := by
  cases v <;> simp

/-- Membership in calllog_list is membership in the filtered collection. -/
theorem mem_calllog_list (s : MongoState) (dr : DateRange) (doc : CallDoc) :
    doc ∈ Mongo.calllog_list s dr ↔
      doc ∈ (if dr.startD.isSome || dr.endD.isSome then
          s.calllog.filter (fun d =>
            (dr.startD.all (fun a => decide (a ≤ d.Date))) &&
            (dr.endD.all (fun b => decide (d.Date ≤ b))))
        else s.calllog) :=
  (List.perm_insertionSort callDateGe _).mem_iff

/-! ## Claim theorems -/

/-- C7: starting from a store without the phone number, two masterCreate
calls whose records normalize to the same phone number yield a fresh id
on the first call and DuplicateKeyError (the conflict outcome of the
unique MobileNo index) on the second, and the store then holds exactly
one master record with that phone number. -/
theorem c7_master_create_conflict (s : MongoState) (r1 r2 : MasterRec) (t1 t2 : Nat)
    (hsame : normalizeStr r1.MobileNo = normalizeStr r2.MobileNo)
    (hfresh : ∀ d ∈ s.master, d.fields.MobileNo ≠ normalizeStr r1.MobileNo) :
    ∃ newId s1,
      Mongo.master_create s r1 t1 = .ok (newId, s1)
      ∧ Mongo.master_create s1 r2 t2 = .error .duplicateKey
      ∧ (s1.master.filter
          (fun d => d.fields.MobileNo == normalizeStr r1.MobileNo)).length = 1 := by
  have hmob1 : (master_to_doc r1 t1).MobileNo = normalizeStr r1.MobileNo := rfl
  have hmob2 : (master_to_doc r2 t2).MobileNo = normalizeStr r2.MobileNo := rfl
  have hany : (s.master.any
      (fun d => d.fields.MobileNo == (master_to_doc r1 t1).MobileNo)) = false := by
    rw [List.any_eq_false]
    intro d hd
    simp only [hmob1, beq_iff_eq]
    exact hfresh d hd
  refine ⟨toString s.nextId,
    ({ s with master := s.master ++ [{ oid := s.nextId, fields := master_to_doc r1 t1 }]
              nextId := s.nextId + 1 } : MongoState), ?_, ?_, ?_⟩
  · unfold Mongo.master_create
    simp only [hany, Bool.false_eq_true, if_false]
  · have hmemb : ({ oid := s.nextId, fields := master_to_doc r1 t1 } : MasterDoc) ∈
        s.master ++ [{ oid := s.nextId, fields := master_to_doc r1 t1 }] :=
      List.mem_append_right _ (List.mem_singleton.mpr rfl)
    have hany2 : (((s.master ++ [({ oid := s.nextId, fields := master_to_doc r1 t1 } : MasterDoc)]).any
        (fun d => d.fields.MobileNo == (master_to_doc r2 t2).MobileNo))) = true := by
      rw [List.any_eq_true]
      refine ⟨_, hmemb, ?_⟩
      simp only [hmob1, hmob2, hsame, beq_self_eq_true]
    unfold Mongo.master_create
    simp only [hany2, if_true]
  · simp only [List.filter_append, List.length_append]
    have h0 : (s.master.filter
        (fun d => d.fields.MobileNo == normalizeStr r1.MobileNo)).length = 0 := by
      rw [List.length_eq_zero, List.filter_eq_nil_iff]
      intro d hd
      simp only [beq_iff_eq]
      exact hfresh d hd
    rw [h0]
    simp [hmob1]

/-- C7 witness: two inserts whose phone numbers both strip to 99 conflict
on the second insert and leave exactly one record for 99. -/
theorem c7_witness :
    ∃ newId s1,
      Mongo.master_create { master := [], calllog := [], nextId := 1 }
          { MobileNo := some "99 " } 0 = .ok (newId, s1)
      ∧ Mongo.master_create s1 { MobileNo := some " 99" } 0 = .error .duplicateKey
      ∧ (s1.master.filter
          (fun d => d.fields.MobileNo ==
            normalizeStr (({ MobileNo := some "99 " } : MasterRec).MobileNo))).length = 1 :=
  c7_master_create_conflict { master := [], calllog := [], nextId := 1 }
    { MobileNo := some "99 " } { MobileNo := some " 99" } 0 0 (by decide) (by simp)

/-- C5 counterexample: on a store holding one master record,
masterReplaceAll([]) returns 0 but empties the store; the set of master
records afterwards is not the set before the call, refuting the claimed
no-op. -/
theorem c5_counterexample :
    Mongo.master_replace_all oneRecStore [] 0 =
      .ok (0, { master := [], calllog := [], nextId := 2 })
    ∧ oneRecStore.master ≠ ([] : List MasterDoc) := by
  exact ⟨rfl, by decide⟩

/-- C5 amended: masterReplaceAll([]) always returns 0 and leaves the
master store empty (delete_many runs before the zero-length check); it
coincides with a no-op only when the store was already empty. -/
theorem c5_replace_all_empty_clears (s : MongoState) (now : Nat) :
    Mongo.master_replace_all s [] now = .ok (0, { s with master := [] })
    ∧ (s.master = [] → Mongo.master_replace_all s [] now = .ok (0, s)) := by
  refine ⟨rfl, ?_⟩
  intro h
  cases s with
  | mk m c n =>
    have h2 : m = [] := h
    subst h2
    rfl

/-- C5 witness: on an already-empty store the call returns 0 and the
state is unchanged. -/
theorem c5_witness :
    Mongo.master_replace_all { master := [], calllog := [], nextId := 5 } [] 7 =
      .ok (0, { master := [], calllog := [], nextId := 5 }) :=
  (c5_replace_all_empty_clears { master := [], calllog := [], nextId := 5 } 7).2 rfl

/-- C4 counterexample: masterUpdate on an existing id changes the stored
record yet returns None, not a boolean — neither true nor false — so the
return value cannot indicate whether a document changed. -/
theorem c4_counterexample :
    (Mongo.master_update oneRecStore 1 updRec 9).1 = PyVal.pynone
    ∧ (Mongo.master_update oneRecStore 1 updRec 9).2 ≠ oneRecStore
    ∧ (Mongo.master_update oneRecStore 1 updRec 9).1 ≠ PyVal.pybool true
    ∧ (Mongo.master_update oneRecStore 1 updRec 9).1 ≠ PyVal.pybool false := by
  decide

/-- C4 amended: masterUpdate applies the full field set (normalized
fields, UpdatedDate stamped with now) to the document with the given id,
leaves every other document unchanged, and returns None — it carries no
indication of whether anything changed. -/
theorem c4_master_update_applies_returns_none
    (s : MongoState) (rid : Nat) (r : MasterRec) (now : Nat) :
    (Mongo.master_update s rid r now).1 = PyVal.pynone
    ∧ (∀ b : Bool, (Mongo.master_update s rid r now).1 ≠ PyVal.pybool b)
    ∧ (∀ d ∈ s.master, d.oid ≠ rid → d ∈ (Mongo.master_update s rid r now).2.master)
    ∧ (∀ d ∈ s.master, d.oid = rid →
        ({ oid := d.oid, fields := { master_to_doc r now with UpdatedDate := now } } : MasterDoc)
          ∈ (Mongo.master_update s rid r now).2.master) := by
  refine ⟨rfl, ?_, ?_, ?_⟩
  · intro b h
    exact PyVal.noConfusion h
  · intro d hd hne
    exact List.mem_map.mpr ⟨d, hd, by simp [hne]⟩
  · intro d hd he
    exact List.mem_map.mpr ⟨d, hd, by simp [he]⟩

/-- C4 witness: on the one-record store, the rewritten document (with its
fields replaced and UpdatedDate stamped) is in the store after the
update. -/
theorem c4_witness :
    ({ oid := 1, fields := { master_to_doc updRec 9 with UpdatedDate := 9 } } : MasterDoc)
      ∈ (Mongo.master_update oneRecStore 1 updRec 9).2.master :=
  (c4_master_update_applies_returns_none oneRecStore 1 updRec 9).2.2.2
    { oid := 1, fields := { MobileNo := some "111" } } (by simp [oneRecStore]) rfl

/-- C9: verify returns a boolean for all (string) inputs — it is false
when the secret is unconfigured or any required field is empty; otherwise
it is true exactly when the provided key, trimmed and uppercased, equals
the recomputed expected key; changing only the case of the email or of
the hardware id leaves the outcome unchanged; and any change of the
inputs that alters the recomputed expected key turns a previously
accepted key into a rejected one. -/
theorem c9_verify_key_spec (H : String → String) (secret email mobile hwid key : String) :
    (verify_key H "" email mobile hwid key = false)
    ∧ ((email = "" ∨ mobile = "" ∨ hwid = "" ∨ key = "") →
        verify_key H secret email mobile hwid key = false)
    ∧ (secret ≠ "" → email ≠ "" → mobile ≠ "" → hwid ≠ "" → key ≠ "" →
        (verify_key H secret email mobile hwid key = true ↔
          pyUpper (pyStrip key) = expectedKey H secret email mobile hwid))
    ∧ (∀ email2, pyLower (pyStrip email2) = pyLower (pyStrip email) →
        (email2 = "" ↔ email = "") →
        verify_key H secret email2 mobile hwid key =
          verify_key H secret email mobile hwid key)
    ∧ (∀ hwid2, pyUpper (pyStrip hwid2) = pyUpper (pyStrip hwid) →
        (hwid2 = "" ↔ hwid = "") →
        verify_key H secret email mobile hwid2 key =
          verify_key H secret email mobile hwid key)
    ∧ (∀ email2 mobile2 hwid2,
        expectedKey H secret email2 mobile2 hwid2 ≠ expectedKey H secret email mobile hwid →
        verify_key H secret email mobile hwid key = true →
        verify_key H secret email2 mobile2 hwid2 key = false) := by
  refine ⟨?_, ?_, ?_, ?_, ?_, ?_⟩
  · simp [verify_key]
  · intro h
    unfold verify_key
    split_ifs with h1 h2
    · rfl
    · rfl
    · simp only [Bool.or_eq_true, decide_eq_true_eq] at h2
      push_neg at h2
      tauto
  · intro h1 h2 h3 h4 h5
    rw [verify_key_true_iff]
    tauto
  · intro email2 hcase hempty
    unfold verify_key expectedKey rawStr
    rw [hcase]
    by_cases he : email = ""
    · simp [he, hempty.mpr he]
    · simp [he, (not_congr hempty).mpr he]
  · intro hwid2 hcase hempty
    unfold verify_key expectedKey rawStr
    rw [hcase]
    by_cases hh : hwid = ""
    · simp [hh, hempty.mpr hh]
    · simp [hh, (not_congr hempty).mpr hh]
  · intro email2 mobile2 hwid2 hne htrue
    rcases (verify_key_true_iff H secret email mobile hwid key).mp htrue with
      ⟨hs, _, _, _, hk, heq⟩
    have hfalse : ¬ (verify_key H secret email2 mobile2 hwid2 key = true) := by
      intro hc
      rcases (verify_key_true_iff H secret email2 mobile2 hwid2 key).mp hc with
        ⟨_, _, _, _, _, heq2⟩
      exact hne (heq2.symm.trans heq)
    cases hb : verify_key H secret email2 mobile2 hwid2 key
    · rfl
    · exact absurd hb hfalse

/-- C9 witness: a concrete key generated by the sample derivation is
accepted for the matching inputs. -/
theorem c9_witness :
    verify_key sampleHash "s" "A@B.c" "123" "ab" "0000-1111-2222-3333" = true :=
  ((c9_verify_key_spec sampleHash "s" "A@B.c" "123" "ab" "0000-1111-2222-3333").2.2.1
    (by decide) (by decide) (by decide) (by decide) (by decide)).mpr (by decide)

/-- C2: contrary to the claim, the startup re-verification of a persisted
activation record never activates the session, even on the same machine
with a matching key: set_active_repo calls verify_key with only three of
its four required positional arguments, the resulting TypeError is
swallowed by the blanket except, and app_activated is left unchanged.
The second conjunct shows a record whose key verify_key itself accepts
for this machine, and the third that startup re-verification still leaves
the session unactivated on it. -/
theorem c2_reverify_never_activates :
    (∀ (H : String → String) (secret : String) (actRecord : Option ActRecord) (a0 : Bool),
        set_active_repo_reverify H secret actRecord a0 = a0)
    ∧ verify_key sampleHash2 "sec" "user@mail.com" "9990001111" "AAAA-BBBB-CCCC-DDDD"
        "0123-4567-89ab-cdef" = true
    ∧ set_active_repo_reverify sampleHash2 "sec"
        (some { email := "user@mail.com", mobile := "9990001111",
                key := "0123-4567-89ab-cdef", hwid := "AAAA-BBBB-CCCC-DDDD" }) false = false := by
  refine ⟨?_, by decide, by decide⟩
  intro H secret actRecord a0
  cases actRecord with
  | none => rfl
  | some r =>
    show (if r.email ≠ "" ∧ r.mobile ≠ "" ∧ r.key ≠ "" then
            match verify_key_pyCall H secret [r.email, r.mobile, r.key] with
            | .ok true => true
            | .ok false => a0
            | .error _ => a0
          else a0) = a0
    split_ifs <;> rfl

/-- C10: every persisted call-log entry carries a datetime in Date: the
appended MongoDB document keeps the caller's value when the supplied Date
is a datetime and is stamped with the current time otherwise (including
when Date is absent); the MSSQL implementation persists nothing at all
because its connection helper raises. -/
theorem c10_calllog_create_always_dated (s : MongoState) (r : CallRec) (now : Nat) :
    (∃ doc : CallDoc,
      (Mongo.calllog_create s r now).2.calllog = s.calllog ++ [doc]
      ∧ ((∃ d, r.Date = PyVal.pydt d ∧ doc.Date = d)
         ∨ ((∀ d, r.Date ≠ PyVal.pydt d) ∧ doc.Date = now)))
    ∧ (∀ sq : SqlState, MSSQL.calllog_create sq r now =
        .error (.runtimeError
          "MSSQL support removed. Use MongoDB repository (set DB_BACKEND=mongodb).")) := by
  constructor
  · refine ⟨_, rfl, ?_⟩
    exact dateCoerce r.Date now
  · intro sq
    rfl

/-- C10 witness: a record whose Date holds a string is stored with the
current time 42 as its date. -/
theorem c10_witness :
    (∃ doc : CallDoc,
      (Mongo.calllog_create { master := [], calllog := [], nextId := 1 }
          { Date := PyVal.pystr "2024-03-01" } 42).2.calllog = [] ++ [doc]
      ∧ ((∃ d, ({ Date := PyVal.pystr "2024-03-01" } : CallRec).Date = PyVal.pydt d
            ∧ doc.Date = d)
         ∨ ((∀ d, ({ Date := PyVal.pystr "2024-03-01" } : CallRec).Date ≠ PyVal.pydt d)
            ∧ doc.Date = 42)))
    ∧ (∀ sq : SqlState,
        MSSQL.calllog_create sq { Date := PyVal.pystr "2024-03-01" } 42 =
          .error (.runtimeError
            "MSSQL support removed. Use MongoDB repository (set DB_BACKEND=mongodb).")) :=
  c10_calllog_create_always_dated { master := [], calllog := [], nextId := 1 }
    { Date := PyVal.pystr "2024-03-01" } 42

/-- C1 counterexample: on the same logical store contents (both stores
empty), masterList succeeds on the MongoDB implementation and fails with
RuntimeError on the MSSQL implementation, whose connection helper
unconditionally raises — the backends do not produce the same
success/failure outcome. -/
theorem c1_counterexample :
    Mongo.master_list { master := [], calllog := [], nextId := 1 } = []
    ∧ MSSQL.master_list { master := [], calllog := [], nextSr := 1 } =
        .error (.runtimeError
          "MSSQL support removed. Use MongoDB repository (set DB_BACKEND=mongodb).")
    ∧ (MSSQL.master_list { master := [], calllog := [], nextSr := 1 }).isOk = false :=
  ⟨rfl, rfl, rfl⟩

/-- C1 amended: only the MongoDB implementation is operational — its
masterList is a permutation of the stored master records sorted by phone
number ascending; every MSSQL masterList call fails with the RuntimeError
raised by get_db_connection, so the two backends are not
interchangeable. -/
theorem c1_backends_not_interchangeable :
    (∀ s : MongoState,
        List.Sorted optStrLe ((Mongo.master_list s).map (fun p => p.2.MobileNo))
        ∧ (Mongo.master_list s).Perm (s.master.map (fun d => (toString d.oid, d.fields))))
    ∧ (∀ s : SqlState, MSSQL.master_list s =
        .error (.runtimeError
          "MSSQL support removed. Use MongoDB repository (set DB_BACKEND=mongodb).")) := by
  constructor
  · intro s
    constructor
    · have hs := List.sorted_insertionSort masterMobLe s.master
      unfold Mongo.master_list
      rw [List.map_map]
      exact List.Pairwise.map _ (fun a b h => h) hs
    · exact (List.perm_insertionSort masterMobLe s.master).map _
  · intro s
    rfl

/-- C6: callLogList with an absent range returns all entries sorted by
date descending; with the range built by the reports page for a start day
and an end day (start at midnight, end at the last microsecond of the
day) it returns, sorted by date descending, exactly the entries whose
calendar day lies between the two days inclusively; in particular a
single-day range captures exactly the entries of that day regardless of
their time-of-day component. -/
theorem c6_calllog_list_range (s : MongoState) (d1 d2 : Nat) :
    ((Mongo.calllog_list s { startD := none, endD := none }).Perm s.calllog
      ∧ List.Sorted callDateGe (Mongo.calllog_list s { startD := none, endD := none }))
    ∧ (List.Sorted callDateGe (Mongo.calllog_list s (pageDateRange (some d1) (some d2)))
      ∧ ∀ doc : CallDoc,
          doc ∈ Mongo.calllog_list s (pageDateRange (some d1) (some d2)) ↔
            doc ∈ s.calllog ∧ d1 ≤ doc.Date / usPerDay ∧ doc.Date / usPerDay ≤ d2)
    ∧ (∀ doc : CallDoc,
          doc ∈ Mongo.calllog_list s (pageDateRange (some d1) (some d1)) ↔
            doc ∈ s.calllog ∧ doc.Date / usPerDay = d1) := by
  have hmem : ∀ dd1 dd2 : Nat, ∀ doc : CallDoc,
      doc ∈ Mongo.calllog_list s (pageDateRange (some dd1) (some dd2)) ↔
        doc ∈ s.calllog ∧ dd1 ≤ doc.Date / usPerDay ∧ doc.Date / usPerDay ≤ dd2 := by
    intro dd1 dd2 doc
    have h1 : doc ∈ Mongo.calllog_list s (pageDateRange (some dd1) (some dd2)) ↔
        doc ∈ s.calllog.filter (fun d =>
          (decide (dd1 * usPerDay ≤ d.Date)) &&
          (decide (d.Date ≤ dd2 * usPerDay + (usPerDay - 1)))) :=
      mem_calllog_list s (pageDateRange (some dd1) (some dd2)) doc
    rw [h1, List.mem_filter]
    simp only [Bool.and_eq_true, decide_eq_true_eq]
    constructor
    · rintro ⟨hin, hw⟩
      exact ⟨hin, (dayWindow dd1 dd2 doc.Date).mp hw⟩
    · rintro ⟨hin, hw⟩
      exact ⟨hin, (dayWindow dd1 dd2 doc.Date).mpr hw⟩
  refine ⟨⟨?_, ?_⟩, ⟨?_, hmem d1 d2⟩, ?_⟩
  · exact List.perm_insertionSort callDateGe s.calllog
  · exact List.sorted_insertionSort callDateGe s.calllog
  · exact List.sorted_insertionSort callDateGe _
  · intro doc
    rw [hmem d1 d1 doc]
    constructor
    · rintro ⟨hin, hlo, hhi⟩
      exact ⟨hin, le_antisymm hhi hlo⟩
    · rintro ⟨hin, heq⟩
      exact ⟨hin, le_of_eq heq.symm, le_of_eq heq⟩

/-- C6 witness: on the sample store, the single-day range for day 2
contains the day-2 entry (whose time-of-day is 123 microseconds past
midnight) and the two-day range 2..3 contains the midnight day-3 entry. -/
theorem c6_witness :
    (dayTwoDoc ∈ Mongo.calllog_list reportStore (pageDateRange (some 2) (some 2)))
    ∧ (dayThreeDoc ∈ Mongo.calllog_list reportStore (pageDateRange (some 2) (some 3))) :=
  ⟨((c6_calllog_list_range reportStore 2 2).2.2 dayTwoDoc).mpr
      ⟨by simp [reportStore], by decide⟩,
    ((c6_calllog_list_range reportStore 2 3).2.1.2 dayThreeDoc).mpr
      ⟨by simp [reportStore], by decide, by decide⟩⟩

/-- C3: the retention step never deletes anything this backup pipeline
produces — _clean_old_backups globs CLM_Backup_*.zip while run_mongo_backup
names its archives dbName_timestamp.zip.  Starting from five archives of
database CallLogDB, a sixth successful run leaves six archives (not the
claimed three): the glob matches none of them. -/
theorem c3_retention_glob_mismatch :
    (run_mongo_backup sixthRunEnv "CallLogDB" fiveArchives).1.1 = true
    ∧ (run_mongo_backup sixthRunEnv "CallLogDB" fiveArchives).2.files.length = 6
    ∧ ¬ ((run_mongo_backup sixthRunEnv "CallLogDB" fiveArchives).2.files.length ≤ 3)
    ∧ globCLM ((run_mongo_backup sixthRunEnv "CallLogDB" fiveArchives).2.files) = [] := by
  refine ⟨rfl, rfl, by decide, rfl⟩

/-- C8: when the dump subprocess exits non-zero the run returns the
failure outcome carrying the subprocess stderr and the temporary dump
directory does not exist afterwards; the temporary directory is likewise
removed when any other exception (modelled on make_archive) interrupts
the run. -/
theorem c8_backup_failure_cleanup (env : BackupEnv) (dbName : String) (folder : Folder)
    (stderr : String) (dirLeft : Bool) (htool : env.toolExists = true) :
    (env.dump = .fail stderr dirLeft →
      (run_mongo_backup env dbName folder).1 = (false, "Backup failed: " ++ stderr)
      ∧ ("temp_" ++ dbName ++ "_" ++ env.ts) ∉ (run_mongo_backup env dbName folder).2.dirs)
    ∧ (∀ msg, env.dump = .ok → env.zipExc = some msg →
      (run_mongo_backup env dbName folder).1 = (false, msg)
      ∧ ("temp_" ++ dbName ++ "_" ++ env.ts) ∉ (run_mongo_backup env dbName folder).2.dirs) := by
  constructor
  · intro hdump
    have key : run_mongo_backup env dbName folder =
        ((false, "Backup failed: " ++ stderr),
          removeDirIfExists
            (if dirLeft then
              { folder with dirs := folder.dirs ++ ["temp_" ++ dbName ++ "_" ++ env.ts] }
            else folder)
            ("temp_" ++ dbName ++ "_" ++ env.ts)) := by
      unfold run_mongo_backup
      rw [htool, hdump]
      rfl
    rw [key]
    exact ⟨rfl, not_mem_removeDir _ _⟩
  · intro msg hdump hzip
    have key : run_mongo_backup env dbName folder =
        ((false, msg),
          removeDirIfExists
            { folder with dirs := folder.dirs ++ ["temp_" ++ dbName ++ "_" ++ env.ts] }
            ("temp_" ++ dbName ++ "_" ++ env.ts)) := by
      unfold run_mongo_backup
      rw [htool, hdump, hzip]
      rfl
    rw [key]
    exact ⟨rfl, not_mem_removeDir _ _⟩

/-- C8 witness: a failing dump with stderr boom yields the failure
outcome carrying boom and no temporary directory is left behind. -/
theorem c8_witness :
    (run_mongo_backup failEnv "db" { files := [], dirs := [] }).1 =
      (false, "Backup failed: " ++ "boom")
    ∧ ("temp_" ++ "db" ++ "_" ++ failEnv.ts) ∉
        (run_mongo_backup failEnv "db" { files := [], dirs := [] }).2.dirs :=
  (c8_backup_failure_cleanup failEnv "db" { files := [], dirs := [] } "boom" true rfl).1 rfl

end CallLogMgmt
